import Mathlib

/-
  Shallow embedding of the biometric-lock repository.

  Sources embedded here:
  - src/models.py      : User.set_iris_data, User.get_iris_data, User.record_login_attempt
  - src/security.py    : encrypt_iris_data, decrypt_iris_data, is_rate_limited (in-memory path)
  - src/app.py         : login, detect_iris_in_image, compare_iris_images, verify_iris
  - src/iris_recognition.py : IrisRecognition._extract_iris_features, process_image,
                              compare_iris_features
  - src/utils.py       : calculate_iris_quality_score

  External numeric libraries (cv2 decode / cvtColor / HoughCircles / getGaborKernel,
  werkzeug password hashing, dlib face detection) are modelled as abstract function
  parameters; Python floats are modelled as exact reals; byte strings as lists of
  naturals; timestamps as naturals.
-/

namespace BiometricLock

/-! ## Bytes and users -/

/-- A byte string (Python bytes), as a list of naturals. -/
abbrev Bytes := List Nat

/-- security.py encrypt_iris_data: placeholder, returns its input unchanged. -/
def encrypt_iris_data (iris_data : Bytes) : Bytes :=
  iris_data

/-- security.py decrypt_iris_data: placeholder, returns its input unchanged. -/
def decrypt_iris_data (encrypted_data : Bytes) : Bytes :=
  encrypted_data

/-- The user record.  app.py's User carries username, password_hash and iris_data;
models.py's User additionally carries the lockout fields failed_attempts,
locked_until and last_login.  The two classes are merged into one record so that
route behaviour and lockout state can be related; the app.py routes read only the
first three fields, exactly as in the source. -/
structure UserRec where
  username : String
  password_hash : String
  iris_data : Option Bytes
  failed_attempts : Nat
  locked_until : Option Nat
  last_login : Option Nat
deriving DecidableEq

/-- models.py User.set_iris_data: encrypt and store. -/
def set_iris_data (u : UserRec) (d : Bytes) : UserRec :=
  { u with iris_data := some (encrypt_iris_data d) }

/-- models.py User.get_iris_data: Python tests `if self.iris_data:`, which is
falsy both for None and for the empty byte string; only a non-empty stored
value is decrypted and returned. -/
def get_iris_data (u : UserRec) : Option Bytes :=
  match u.iris_data with
  | some d => if d.isEmpty then none else some (decrypt_iris_data d)
  | none => none

/-- Result of models.py User.record_login_attempt.  models.py imports only
datetime (line 1), so the expression `datetime.utcnow() + timedelta(minutes=30)`
on line 56 raises NameError at runtime; the constructor carries the user state
as already mutated when the exception is raised (failed_attempts was
incremented in place on line 54 before line 56 runs). -/
inductive RecordResult where
  | ok (u : UserRec)
  | nameErrorTimedelta (u : UserRec)
deriving DecidableEq

/-- models.py User.record_login_attempt. -/
def record_login_attempt (u : UserRec) (success : Bool) (now : Nat) : RecordResult :=
  if success then
    .ok { u with failed_attempts := 0, last_login := some now, locked_until := none }
  else
    let f := u.failed_attempts + 1
    if 5 ≤ f then
      .nameErrorTimedelta { u with failed_attempts := f }
    else
      .ok { u with failed_attempts := f }

/-! ## The login route (app.py lines 80-104) -/

/-- The parsed JSON body of a POST /login request: either no JSON at all, or a
dict whose username/password keys may each be present or missing. -/
inductive LoginReq where
  | noJson
  | fields (username password : Option String)

/-- Outcomes of the login route.  accountLocked is the AccountLocked rejection
from the specification's error taxonomy; it is listed so that its absence from
every code path can be stated. -/
inductive LoginOutcome where
  | badRequest
  | success
  | invalidCredentials
  | accountLocked
deriving DecidableEq

/-- app.py login (POST branch).  chk models werkzeug's check_password_hash
(external).  The second component records whether the password check was
evaluated: the source runs `user and user.check_password(...)`, so the check
runs exactly when the username lookup found a user.  The route never consults
locked_until or failed_attempts. -/
def login (chk : String → String → Bool) (req : LoginReq) (users : List UserRec) :
    LoginOutcome × Bool :=
  match req with
  | .noJson => (.badRequest, false)
  | .fields (some un) (some pw) =>
    match users.find? (fun x => x.username == un) with
    | some user => if chk user.password_hash pw then (.success, true) else (.invalidCredentials, true)
    | none => (.invalidCredentials, false)
  | .fields _ _ => (.badRequest, false)

/-! ## Iris detection and the verify route (app.py lines 145-254) -/

/-- A decoded image: a pixel grid. -/
abbrev Img := List (List Nat)

/-- A circle reported by cv2.HoughCircles after np.round/astype(int). -/
structure Circle where
  x : Int
  y : Int
  r : Int
deriving DecidableEq

/-- The cv2 operations used by detect_iris_in_image, abstracted: imdecode
(None on undecodable input), cvtColor to grayscale, and HoughCircles (None
when no circles are found). -/
structure Cv where
  decode : Bytes → Option Img
  gray : Img → Img
  hough : Img → Option (List Circle)

/-- app.py detect_iris_in_image: decode, convert to grayscale, run Hough; the
for-loop returns True at the first circle of radius above 15, otherwise False. -/
def detect_iris_in_image (cv : Cv) (image_data : Bytes) : Bool :=
  match cv.decode image_data with
  | none => false
  | some img =>
    match cv.hough (cv.gray img) with
    | some circles => circles.any fun c => decide (15 < c.r)
    | none => false

/-- app.py compare_iris_images: logs the two sizes and returns True
unconditionally (an explicit temporary stub in the source). -/
def compare_iris_images (stored_iris_data new_iris_data : Bytes) : Bool :=
  true

/-- Outcomes of the verify_iris route.  rateLimited is the RateLimited
rejection (HTTP 429) produced by security.py's rate_limit decorator; it is
listed so that its absence from every verify_iris code path can be stated. -/
inductive VerifyOutcome where
  | noImageProvided
  | noIrisDetected
  | noRegisteredIris
  | matched (username : String)
  | noMatch
  | rateLimited
deriving DecidableEq

/-- app.py verify_iris.  The second component records whether the Template
Store was queried (the `User.query.filter(User.iris_data.isnot(None)).all()`
call).  The route: missing file is a 400; detection failure returns before the
store is touched; otherwise the users with iris data are scanned in store
order and the first one whose stored bytes compare true against the submitted
bytes is logged in. -/
def verify_iris (cv : Cv) (file : Option Bytes) (users : List UserRec) :
    VerifyOutcome × Bool :=
  match file with
  | none => (.noImageProvided, false)
  | some iris_image_data =>
    if detect_iris_in_image cv iris_image_data then
      let users_with_iris := users.filter fun u => u.iris_data.isSome
      if users_with_iris.isEmpty then
        (.noRegisteredIris, true)
      else
        match users_with_iris.find? (fun u => compare_iris_images (u.iris_data.getD []) iris_image_data) with
        | some user => (.matched user.username, true)
        | none => (.noMatch, true)
    else
      (.noIrisDetected, false)

/-! ## Rate limiter (security.py lines 26-61, in-memory fallback path) -/

/-- One entry of rate_limit_storage: attempt count and window start time. -/
structure RLEntry where
  attempts : Nat
  start_time : Nat
deriving DecidableEq

/-- security.py is_rate_limited, in-memory fallback path.  Input is the stored
entry for the requesting address (none on first contact); output is the
decision (true means rejected) and the updated entry. -/
def is_rate_limited (window max_attempts now : Nat) (st : Option RLEntry) :
    Bool × RLEntry :=
  match st with
  | some data =>
    if window < now - data.start_time then
      (false, ⟨1, now⟩)
    else if max_attempts ≤ data.attempts then
      (true, data)
    else
      (false, ⟨data.attempts + 1, data.start_time⟩)
  | none => (false, ⟨1, now⟩)

/-- Run a sequence of requests (given by their timestamps) from one origin
address through is_rate_limited, returning how many were processed (not
rejected) and the final stored entry. -/
def runRequests (window max_attempts : Nat) : List Nat → Option RLEntry → Nat × Option RLEntry
  | [], st => (0, st)
  | t :: ts, st =>
    let r := is_rate_limited window max_attempts t st
    let rest := runRequests window max_attempts ts (some r.2)
    ((if r.1 then 0 else 1) + rest.1, rest.2)

/-- Number of requests processed (not rejected) in a request sequence from one
address starting from an empty rate_limit_storage. -/
def processedCount (window max_attempts : Nat) (ts : List Nat) : Nat :=
  (runRequests window max_attempts ts none).1

/-! ## Real-valued numerics: matcher, quality scorer, feature extractor.
Python floats are modelled as exact reals. -/

noncomputable section

/-- Dot product of two equal-length vectors (np.dot on 1-D arrays). -/
def listDot (a b : List ℝ) : ℝ :=
  (List.zipWith (· * ·) a b).sum

/-- Sum of squares of a vector's entries. -/
def sumSq (v : List ℝ) : ℝ :=
  (v.map fun x => x * x).sum

/-- np.linalg.norm of a 1-D vector: the L2 norm. -/
def l2norm (v : List ℝ) : ℝ :=
  Real.sqrt (sumSq v)

/-- Elementwise division of a vector by its L2 norm (the
`features / np.linalg.norm(features)` step of compare_iris_features). -/
def l2normalize (v : List ℝ) : List ℝ :=
  v.map fun x => x / l2norm v

/-- Cosine similarity as the specification words it: the dot product of the
two vectors after each is normalized to unit L2 norm. -/
def cosine_similarity (a b : List ℝ) : ℝ :=
  listDot (l2normalize a) (l2normalize b)

/-- iris_recognition.py IrisRecognition.compare_iris_features: None on either
side fails closed; otherwise normalize each vector and declare a match when
the dot product reaches the threshold (source default 0.8). -/
def compare_iris_features (features1 features2 : Option (List ℝ)) (threshold : ℝ) : Prop :=
  match features1, features2 with
  | some f1, some f2 => threshold ≤ listDot (l2normalize f1) (l2normalize f2)
  | _, _ => False

/-- Row-major flattening of an m-by-n pixel grid into a list (numpy flatten /
iterating all pixels of a 2-D array).  Only indices below m and n are read. -/
def flattenImg (m n : Nat) (img : Nat → Nat → ℝ) : List ℝ :=
  (List.range m).flatMap fun i => (List.range n).map fun j => img i j

/-- np.mean of a list of scalars. -/
def meanList (v : List ℝ) : ℝ :=
  v.sum / v.length

/-- np.var (population variance) of a list of scalars. -/
def varList (v : List ℝ) : ℝ :=
  ((v.map fun x => (x - meanList v) ^ 2).sum) / v.length

/-- np.std (population standard deviation) of a list of scalars. -/
def stdList (v : List ℝ) : ℝ :=
  Real.sqrt (varList v)

/-- Reflect-101 border indexing (cv2 BORDER_DEFAULT) used by cv2 filtering:
index -k maps to k, index m-1+k maps to m-1-k; totalized by a final reduction
modulo m for indices reflected past the opposite edge. -/
def refl101 (m : Nat) (z : Int) : Nat :=
  ((if z < 0 then -z else if (m : Int) ≤ z then 2 * ((m : Int) - 1) - z else z).toNat) % m

/-- cv2.Laplacian with the default aperture: kernel 0 1 0 / 1 -4 1 / 0 1 0,
reflect-101 border handling. -/
def laplacian (m n : Nat) (img : Nat → Nat → ℝ) (i j : Nat) : ℝ :=
  img (refl101 m ((i : Int) - 1)) j + img (refl101 m ((i : Int) + 1)) j +
    img i (refl101 n ((j : Int) - 1)) + img i (refl101 n ((j : Int) + 1)) -
    4 * img i j

/-- utils.py calculate_iris_quality_score on an m-by-n grayscale image:
three clipped sub-scores (mean intensity, standard deviation, Laplacian
variance) combined as 0.3/0.3/0.4 weighted sum. -/
def calculate_iris_quality_score (m n : Nat) (gray : Nat → Nat → ℝ) : ℝ :=
  let pix := flattenImg m n gray
  let mean_intensity := meanList pix
  let std_intensity := stdList pix
  let laplacian_var := varList (flattenImg m n (laplacian m n gray))
  let intensity_score := min (mean_intensity / 127.5) 1.0
  let contrast_score := min (std_intensity / 64.0) 1.0
  let sharpness_score := min (laplacian_var / 500.0) 1.0
  0.3 * intensity_score + 0.3 * contrast_score + 0.4 * sharpness_score

/-- The Gabor filter orientations of _extract_iris_features:
np.arange(0, pi, pi/4). -/
def gaborThetas : List ℝ :=
  [0, Real.pi / 4, Real.pi / 2, 3 * Real.pi / 4]

/-- The Gabor filter spatial frequencies of _extract_iris_features. -/
def gaborFreqs : List ℝ :=
  [0.1, 0.2, 0.3]

/-- cv2.filter2D of an m-by-n image with a 21-by-21 kernel: correlation with
reflect-101 border handling; the output has the same m-by-n shape. -/
def filter2D (K : Nat → Nat → ℝ) (m n : Nat) (src : Nat → Nat → ℝ) (i j : Nat) : ℝ :=
  (flattenImg 21 21 fun u v =>
    K u v * src (refl101 m ((i : Int) + u - 10)) (refl101 n ((j : Int) + v - 10))).sum

/-- iris_recognition.py IrisRecognition._extract_iris_features on a 100-by-100
iris patch: for each of the 4 orientations and 3 frequencies, build a Gabor
kernel (cv2.getGaborKernel, external: the parameter gabor), filter the patch,
flatten, and concatenate the 12 flattened responses. -/
def extract_iris_features (gabor : ℝ → ℝ → Nat → Nat → ℝ) (iris : Nat → Nat → ℝ) : List ℝ :=
  (gaborThetas.flatMap fun theta => gaborFreqs.map fun freq =>
    flattenImg 100 100 (filter2D (gabor theta freq) 100 100 iris)).flatten

/-- iris_recognition.py IrisRecognition.process_image, from the point where
the per-eye segmentation results are in hand: _extract_iris_features maps None
to None, and the two eyes' feature vectors are concatenated only when both are
present (otherwise the function returns None). -/
def process_image (gabor : ℝ → ℝ → Nat → Nat → ℝ)
    (left_iris right_iris : Option (Nat → Nat → ℝ)) : Option (List ℝ) :=
  match left_iris.map (extract_iris_features gabor),
      right_iris.map (extract_iris_features gabor) with
  | some lf, some rf => some (lf ++ rf)
  | _, _ => none

end

/-! ## Theorems -/

/-- C1: recording a failed authentication attempt for an Active identity
increments failed_attempts by 1 (shown at failed_attempts 2, which succeeds
with counter 3), but when the resulting counter reaches 5 the code does not
transition to Locked: models.py line 56 evaluates `timedelta`, which is never
imported there, so the call raises NameError with the counter already
incremented to 5 and locked_until still unset. -/
theorem C1_lockout_transition_raises :
    record_login_attempt ⟨"testuser", "h", none, 2, none, none⟩ false 1000 =
      RecordResult.ok ⟨"testuser", "h", none, 3, none, none⟩
    ∧ record_login_attempt ⟨"testuser", "h", none, 4, none, none⟩ false 1000 =
      RecordResult.nameErrorTimedelta ⟨"testuser", "h", none, 5, none, none⟩ := by
  constructor <;> rfl

/-- C2: the login route does not enforce lockout.  For a user whose
locked_until lies strictly in the future and whose password is correct, the
route still evaluates the password check (second component true) and returns
success; moreover no input whatsoever makes the route answer AccountLocked. -/
theorem C2_login_ignores_lockout (chk : String → String → Bool) (users : List UserRec)
    (un pw : String) (user : UserRec) (T now : Nat)
    (h1 : users.find? (fun x => x.username == un) = some user)
    (h2 : user.locked_until = some T) (h3 : now < T)
    (h4 : chk user.password_hash pw = true) :
    login chk (.fields (some un) (some pw)) users = (.success, true)
    ∧ ∀ (chk2 : String → String → Bool) (req : LoginReq) (us : List UserRec),
        (login chk2 req us).1 ≠ LoginOutcome.accountLocked := by
  constructor
  · simp [login, h1, h4]
  · intro chk2 req us
    cases req with
    | noJson => simp [login]
    | fields a b =>
      cases a with
      | none => cases b <;> simp [login]
      | some un2 =>
        cases b with
        | none => simp [login]
        | some pw2 =>
          simp only [login]
          cases hfind : us.find? (fun x => x.username == un2) with
          | none => simp
          | some u2 => dsimp only; split <;> simp

/-- C2 witness: a concrete locked user with the correct password. -/
theorem C2_login_ignores_lockout_witness :
    ([(⟨"alice", "pw", none, 5, some 100, none⟩ : UserRec)].find?
        (fun x => x.username == "alice") = some ⟨"alice", "pw", none, 5, some 100, none⟩)
    ∧ (⟨"alice", "pw", none, 5, some 100, none⟩ : UserRec).locked_until = some 100
    ∧ 0 < 100
    ∧ (fun h p => h == p) "pw" "pw" = true
    ∧ (login (fun h p => h == p) (.fields (some "alice") (some "pw"))
          [⟨"alice", "pw", none, 5, some 100, none⟩] = (.success, true)
       ∧ ∀ (chk2 : String → String → Bool) (req : LoginReq) (us : List UserRec),
           (login chk2 req us).1 ≠ LoginOutcome.accountLocked) :=
  ⟨by decide, by decide, by decide, by decide,
    C2_login_ignores_lockout (fun h p => h == p)
      [⟨"alice", "pw", none, 5, some 100, none⟩] "alice" "pw"
      ⟨"alice", "pw", none, 5, some 100, none⟩ 100 0
      (by decide) (by decide) (by decide) (by decide)⟩

/-- C10 counterexample: storing the empty byte string really stores it
(iris_data becomes some empty), yet get_iris_data then returns none rather
than the stored empty byte string, because Python's `if self.iris_data:`
treats empty bytes as falsy. -/
theorem C10_empty_bytes_counterexample :
    (set_iris_data ⟨"u", "h", none, 0, none, none⟩ []).iris_data = some []
    ∧ get_iris_data (set_iris_data ⟨"u", "h", none, 0, none, none⟩ []) = none := by
  constructor <;> rfl

/-- C10 (amended): encryption and decryption are the identity on all byte
strings; for every non-empty byte string b, storing b and reading it back
returns exactly b; and get_iris_data returns none exactly when the stored
iris_data is absent or is the empty byte string. -/
theorem C10_roundtrip_nonempty (u : UserRec) (b : Bytes) (hb : b ≠ []) :
    decrypt_iris_data (encrypt_iris_data b) = b
    ∧ get_iris_data (set_iris_data u b) = some b
    ∧ (get_iris_data u = none ↔ u.iris_data = none ∨ u.iris_data = some []) := by
  refine ⟨rfl, ?_, ?_⟩
  · simp [get_iris_data, set_iris_data, encrypt_iris_data, decrypt_iris_data,
      List.isEmpty_iff, hb]
  · cases h : u.iris_data with
    | none => simp [get_iris_data, h]
    | some d => cases d <;> simp [get_iris_data, h, List.isEmpty_iff]

/-- C10 witness: a concrete non-empty byte string round-trips. -/
theorem C10_roundtrip_nonempty_witness :
    ([1] : Bytes) ≠ []
    ∧ (decrypt_iris_data (encrypt_iris_data [1]) = [1]
       ∧ get_iris_data (set_iris_data ⟨"u", "h", none, 0, none, none⟩ [1]) = some [1]
       ∧ (get_iris_data ⟨"u", "h", none, 0, none, none⟩ = none ↔
            (⟨"u", "h", none, 0, none, none⟩ : UserRec).iris_data = none
            ∨ (⟨"u", "h", none, 0, none, none⟩ : UserRec).iris_data = some [])) :=
  ⟨by decide, C10_roundtrip_nonempty ⟨"u", "h", none, 0, none, none⟩ [1] (by decide)⟩

/-- Helper: starting from an in-window entry with a attempts, a run of n
further same-timestamp requests processes exactly min n (5 - a) of them. -/
theorem runRequests_const_time (window t0 : Nat) :
    ∀ n a : Nat,
      (runRequests window 5 (List.replicate n t0) (some ⟨a, t0⟩)).1 = min n (5 - a) := by
  intro n
  induction n with
  | zero => intro a; simp [runRequests]
  | succ k ih =>
    intro a
    rw [List.replicate_succ]
    simp only [runRequests]
    have hrl : is_rate_limited window 5 t0 (some ⟨a, t0⟩) =
        if 5 ≤ a then (true, ⟨a, t0⟩) else (false, ⟨a + 1, t0⟩) := by
      simp [is_rate_limited]
    rw [hrl]
    by_cases h5 : 5 ≤ a <;> simp only [if_pos, if_neg, h5, if_true, if_false] <;>
      simp [ih] <;> omega

/-- Helper: from an empty store, a run of k same-timestamp requests processes
exactly min k 5 of them (the first sets the counter to 1 and is processed,
each further processed one increments, the rest are rejected). -/
theorem processedCount_replicate (window t0 k : Nat) :
    processedCount window 5 (List.replicate k t0) = min k 5 := by
  cases k with
  | zero => simp [processedCount, runRequests]
  | succ k2 =>
    rw [processedCount, List.replicate_succ]
    simp only [runRequests]
    have hrl : is_rate_limited window 5 t0 none = (false, ⟨1, t0⟩) := rfl
    rw [hrl]
    simp only
    rw [runRequests_const_time window t0 k2 1]
    simp only [Bool.false_eq_true, if_false]
    omega

/-- C3: app.py's compare_iris_images returns True for every pair of byte
strings, so whenever iris detection succeeds on the submitted image and the
filtered user list is non-empty, verify_iris authenticates the request as the
first user in store order that has iris data, regardless of iris content. -/
theorem C3_stub_comparator_first_user (cv : Cv) (data : Bytes) (users : List UserRec)
    (u : UserRec) (rest : List UserRec)
    (h1 : detect_iris_in_image cv data = true)
    (h2 : users.filter (fun x => x.iris_data.isSome) = u :: rest) :
    (∀ s n : Bytes, compare_iris_images s n = true)
    ∧ verify_iris cv (some data) users = (.matched u.username, true) := by
  refine ⟨fun s n => rfl, ?_⟩
  simp [verify_iris, h1, h2, compare_iris_images]

/-- C3 witness: one registered user with iris data and an image in which a
circle of radius 20 is detected. -/
theorem C3_stub_comparator_first_user_witness :
    detect_iris_in_image ⟨fun _ => some [[0]], id, fun _ => some [⟨0, 0, 20⟩]⟩ [1] = true
    ∧ ([(⟨"alice", "pw", some [2], 0, none, none⟩ : UserRec)].filter
        (fun x => x.iris_data.isSome) = [⟨"alice", "pw", some [2], 0, none, none⟩])
    ∧ ((∀ s n : Bytes, compare_iris_images s n = true)
       ∧ verify_iris ⟨fun _ => some [[0]], id, fun _ => some [⟨0, 0, 20⟩]⟩ (some [1])
           [⟨"alice", "pw", some [2], 0, none, none⟩] = (.matched "alice", true)) :=
  ⟨rfl, rfl,
    C3_stub_comparator_first_user ⟨fun _ => some [[0]], id, fun _ => some [⟨0, 0, 20⟩]⟩
      [1] [⟨"alice", "pw", some [2], 0, none, none⟩]
      ⟨"alice", "pw", some [2], 0, none, none⟩ [] rfl rfl⟩

/-- C9: when the decoded image yields no circles at all, verify_iris answers
the no-iris-detected error and the Template Store is never queried (the
second component stays false: the return happens before User.query runs). -/
theorem C9_no_store_scan_without_iris (cv : Cv) (data : Bytes) (users : List UserRec)
    (img : Img) (h1 : cv.decode data = some img) (h2 : cv.hough (cv.gray img) = none) :
    verify_iris cv (some data) users = (.noIrisDetected, false) := by
  simp [verify_iris, detect_iris_in_image, h1, h2]

/-- C9 witness: a decodable image in which Hough finds no circles. -/
theorem C9_no_store_scan_without_iris_witness :
    (Cv.mk (fun _ => some [[0]]) id (fun _ => none)).decode [1] = some [[0]]
    ∧ (Cv.mk (fun _ => some [[0]]) id (fun _ => none)).hough
        ((Cv.mk (fun _ => some [[0]]) id (fun _ => none)).gray [[0]]) = none
    ∧ verify_iris (Cv.mk (fun _ => some [[0]]) id (fun _ => none)) (some [1])
        [⟨"alice", "pw", some [2], 0, none, none⟩] = (.noIrisDetected, false) :=
  ⟨rfl, rfl,
    C9_no_store_scan_without_iris (Cv.mk (fun _ => some [[0]]) id (fun _ => none))
      [1] [⟨"alice", "pw", some [2], 0, none, none⟩] [[0]] rfl rfl⟩

/-- C4: the in-memory rate limiter itself behaves as claimed: a first request
from a new address is processed with the counter initialized to 1, an
in-window request with the counter already at the maximum (5) is rejected,
and from an empty store exactly min k 5 of k same-window requests are
processed.  But verify_iris never produces the RateLimited outcome on any
input: the rate_limit decorator from security.py is not applied to the route,
so no request to it is rejected before image decoding. -/
theorem C4_rate_limiter_not_wired (cv : Cv) (file : Option Bytes) (users : List UserRec)
    (window now t0 k : Nat) (e : RLEntry)
    (h1 : now - e.start_time ≤ window) (h2 : 5 ≤ e.attempts) :
    (verify_iris cv file users).1 ≠ VerifyOutcome.rateLimited
    ∧ is_rate_limited window 5 now none = (false, ⟨1, now⟩)
    ∧ (is_rate_limited window 5 now (some e)).1 = true
    ∧ processedCount window 5 (List.replicate k t0) = min k 5 := by
  refine ⟨?_, rfl, ?_, processedCount_replicate window t0 k⟩
  · cases file with
    | none => simp [verify_iris]
    | some data =>
      simp only [verify_iris]
      split
      · split
        · simp
        · split <;> simp
      · simp
  · simp [is_rate_limited, Nat.not_lt.mpr h1, h2]

/-- C4 witness: a saturated in-window entry and a burst of six requests. -/
theorem C4_rate_limiter_not_wired_witness :
    (0 : Nat) - 0 ≤ 3600 ∧ (5 : Nat) ≤ 5
    ∧ ((verify_iris ⟨fun _ => none, id, fun _ => none⟩ none []).1 ≠ VerifyOutcome.rateLimited
       ∧ is_rate_limited 3600 5 0 none = (false, ⟨1, 0⟩)
       ∧ (is_rate_limited 3600 5 0 (some ⟨5, 0⟩)).1 = true
       ∧ processedCount 3600 5 (List.replicate 6 0) = min 6 5) :=
  ⟨by decide, by decide,
    C4_rate_limiter_not_wired ⟨fun _ => none, id, fun _ => none⟩ none [] 3600 0 0 6
      ⟨5, 0⟩ (by decide) (by decide)⟩

/-- Helper: dot product of a cons. -/
theorem listDot_cons (x y : ℝ) (xs ys : List ℝ) :
    listDot (x :: xs) (y :: ys) = x * y + listDot xs ys := by
  simp [listDot]

/-- Helper: dot product of a vector divided elementwise by c with itself. -/
theorem listDot_self_map_div (v : List ℝ) (c : ℝ) :
    listDot (v.map fun x => x / c) (v.map fun x => x / c) = listDot v v / (c * c) := by
  induction v with
  | nil => simp [listDot]
  | cons a tl ih =>
    simp only [List.map_cons]
    rw [listDot_cons, listDot_cons, ih, div_mul_div_comm, add_div]

/-- Helper: the dot product of a vector with itself is its sum of squares. -/
theorem listDot_self_eq_sumSq (v : List ℝ) : listDot v v = sumSq v := by
  induction v with
  | nil => simp [listDot, sumSq]
  | cons a tl ih => simp [listDot_cons, sumSq, ih]

/-- Helper: a sum of squares is nonnegative. -/
theorem sumSq_nonneg (v : List ℝ) : 0 ≤ sumSq v := by
  apply List.sum_nonneg
  intro x hx
  rcases List.mem_map.mp hx with ⟨y, hy, rfl⟩
  exact mul_self_nonneg y

/-- Helper: a vector of nonzero norm has cosine similarity 1 with itself. -/
theorem cosine_similarity_self (v : List ℝ) (hv : sumSq v ≠ 0) :
    cosine_similarity v v = 1 := by
  have hmul : l2norm v * l2norm v = sumSq v := Real.mul_self_sqrt (sumSq_nonneg v)
  rw [cosine_similarity, l2normalize, listDot_self_map_div, listDot_self_eq_sumSq,
    hmul, div_self hv]

/-- C5: for present feature vectors of equal length, compare_iris_features
declares a match exactly when the dot product of the two unit-L2-normalized
vectors reaches the threshold (source default 0.8); if either vector is
absent it fails closed. -/
theorem C5_matcher_cosine_threshold (f1 f2 : List ℝ) (t : ℝ)
    (hlen : f1.length = f2.length) :
    (compare_iris_features (some f1) (some f2) t ↔ t ≤ cosine_similarity f1 f2)
    ∧ (∀ g, ¬ compare_iris_features none g t)
    ∧ (∀ g, ¬ compare_iris_features g none t) := by
  refine ⟨Iff.rfl, ?_, ?_⟩
  · intro g; cases g <;> simp [compare_iris_features]
  · intro g; cases g <;> simp [compare_iris_features]

/-- C5 witness: two concrete equal-length vectors at the default threshold. -/
theorem C5_matcher_cosine_threshold_witness :
    ([1, 0] : List ℝ).length = ([0, 1] : List ℝ).length
    ∧ ((compare_iris_features (some [1, 0]) (some [0, 1]) 0.8 ↔
          (0.8 : ℝ) ≤ cosine_similarity [1, 0] [0, 1])
       ∧ (∀ g, ¬ compare_iris_features none g 0.8)
       ∧ (∀ g, ¬ compare_iris_features g none 0.8)) :=
  ⟨rfl, C5_matcher_cosine_threshold [1, 0] [0, 1] 0.8 rfl⟩

/-- C8 counterexample: for the all-zero feature vector, comparing it with
itself yields similarity 0 (the normalization divides by a zero norm), not
1.0, and the pair is rejected at threshold 0.8 even though 0.8 is a threshold
below 1.  So the claim fails for the zero vector. -/
theorem C8_zero_vector_counterexample :
    cosine_similarity [(0 : ℝ)] [(0 : ℝ)] = 0
    ∧ ¬ compare_iris_features (some [(0 : ℝ)]) (some [(0 : ℝ)]) 0.8 := by
  have h0 : listDot (l2normalize [(0 : ℝ)]) (l2normalize [(0 : ℝ)]) = 0 := by
    simp [l2normalize, listDot]
  constructor
  · simpa [cosine_similarity] using h0
  · intro hc
    simp only [compare_iris_features] at hc
    rw [h0] at hc
    norm_num at hc

/-- C8 (amended): for every feature vector of nonzero norm, comparing it with
itself yields similarity exactly 1, and the Matcher accepts the pair at every
threshold at most 1. -/
theorem C8_self_similarity (v : List ℝ) (hv : sumSq v ≠ 0) :
    cosine_similarity v v = 1
    ∧ ∀ t : ℝ, t ≤ 1 → compare_iris_features (some v) (some v) t := by
  have h1 : cosine_similarity v v = 1 := cosine_similarity_self v hv
  have h2 : listDot (l2normalize v) (l2normalize v) = 1 := by
    simpa [cosine_similarity] using h1
  refine ⟨h1, fun t ht => ?_⟩
  simp only [compare_iris_features]
  rw [h2]
  exact ht

/-- C8 witness: the one-entry vector of a single 1. -/
theorem C8_self_similarity_witness :
    sumSq [(1 : ℝ)] ≠ 0
    ∧ (cosine_similarity [(1 : ℝ)] [(1 : ℝ)] = 1
       ∧ compare_iris_features (some [(1 : ℝ)]) (some [(1 : ℝ)]) 1) := by
  have hv : sumSq [(1 : ℝ)] ≠ 0 := by norm_num [sumSq]
  exact ⟨hv, (C8_self_similarity [(1 : ℝ)] hv).1,
    (C8_self_similarity [(1 : ℝ)] hv).2 1 le_rfl⟩

/-- Helper: every element of a flattened image is a pixel of the image. -/
theorem flattenImg_mem (m n : Nat) (img : Nat → Nat → ℝ) (x : ℝ)
    (hx : x ∈ flattenImg m n img) : ∃ i j, i < m ∧ j < n ∧ x = img i j := by
  simp only [flattenImg, List.mem_flatMap, List.mem_map, List.mem_range] at hx
  obtain ⟨i, hi, j, hj, hEq⟩ := hx
  exact ⟨i, j, hi, hj, hEq.symm⟩

/-- Helper: the mean of a list of nonnegative scalars is nonnegative. -/
theorem meanList_nonneg (v : List ℝ) (h : ∀ x ∈ v, 0 ≤ x) : 0 ≤ meanList v :=
  div_nonneg (List.sum_nonneg h) (Nat.cast_nonneg _)

/-- Helper: the population variance of any list of scalars is nonnegative. -/
theorem varList_nonneg (v : List ℝ) : 0 ≤ varList v := by
  apply div_nonneg _ (Nat.cast_nonneg _)
  apply List.sum_nonneg
  intro x hx
  rcases List.mem_map.mp hx with ⟨y, hy, rfl⟩
  exact sq_nonneg _

/-- Helper: the population standard deviation is nonnegative. -/
theorem stdList_nonneg (v : List ℝ) : 0 ≤ stdList v :=
  Real.sqrt_nonneg _

/-- C6: on every nonempty grayscale image with pixel values in the byte range,
the quality score 0.3·min(mean/127.5,1) + 0.3·min(std/64,1) +
0.4·min(lapvar/500,1) lies in the closed unit interval. -/
theorem C6_quality_score_unit_interval (m n : Nat) (gray : Nat → Nat → ℝ)
    (hm : 0 < m) (hn : 0 < n)
    (hpix : ∀ i j, i < m → j < n → 0 ≤ gray i j ∧ gray i j ≤ 255) :
    0 ≤ calculate_iris_quality_score m n gray
    ∧ calculate_iris_quality_score m n gray ≤ 1 := by
  have hmean : 0 ≤ meanList (flattenImg m n gray) := by
    apply meanList_nonneg
    intro x hx
    obtain ⟨i, j, hi, hj, hEq⟩ := flattenImg_mem m n gray x hx
    exact hEq ▸ (hpix i j hi hj).1
  have hstd : 0 ≤ stdList (flattenImg m n gray) := stdList_nonneg _
  have hvar : 0 ≤ varList (flattenImg m n (laplacian m n gray)) := varList_nonneg _
  have ha0 : (0 : ℝ) ≤ min (meanList (flattenImg m n gray) / 127.5) 1.0 :=
    le_min (by positivity) (by norm_num)
  have ha1 : min (meanList (flattenImg m n gray) / 127.5) 1.0 ≤ 1.0 := min_le_right _ _
  have hb0 : (0 : ℝ) ≤ min (stdList (flattenImg m n gray) / 64.0) 1.0 :=
    le_min (by positivity) (by norm_num)
  have hb1 : min (stdList (flattenImg m n gray) / 64.0) 1.0 ≤ 1.0 := min_le_right _ _
  have hc0 : (0 : ℝ) ≤ min (varList (flattenImg m n (laplacian m n gray)) / 500.0) 1.0 :=
    le_min (by positivity) (by norm_num)
  have hc1 : min (varList (flattenImg m n (laplacian m n gray)) / 500.0) 1.0 ≤ 1.0 :=
    min_le_right _ _
  constructor <;> simp only [calculate_iris_quality_score] <;> linarith

/-- C6 witness: the degenerate all-black 1-by-1 image. -/
theorem C6_quality_score_unit_interval_witness :
    0 < 1 ∧ 0 < 1
    ∧ (∀ i j : Nat, i < 1 → j < 1 →
        0 ≤ (fun _ _ => (0 : ℝ)) i j ∧ (fun _ _ => (0 : ℝ)) i j ≤ 255)
    ∧ (0 ≤ calculate_iris_quality_score 1 1 (fun _ _ => 0)
       ∧ calculate_iris_quality_score 1 1 (fun _ _ => 0) ≤ 1) :=
  ⟨by decide, by decide, by intro i j hi hj; norm_num,
    C6_quality_score_unit_interval 1 1 (fun _ _ => 0) (by decide) (by decide)
      (by intro i j hi hj; norm_num)⟩

/-- Helper: flattening an m-by-n image yields m*n scalars. -/
theorem flattenImg_length (m n : Nat) (img : Nat → Nat → ℝ) :
    (flattenImg m n img).length = m * n := by
  simp only [flattenImg, List.length_flatMap, Function.comp_def, List.length_map,
    List.length_range]
  rw [List.map_const', List.sum_replicate, List.length_range, smul_eq_mul]

/-- Helper: one eye's feature vector has 12 * 100 * 100 = 120000 components. -/
theorem extract_iris_features_length (g : ℝ → ℝ → Nat → Nat → ℝ)
    (iris : Nat → Nat → ℝ) :
    (extract_iris_features g iris).length = 120000 := by
  simp [extract_iris_features, gaborThetas, gaborFreqs, flattenImg_length]

/-- C7: whenever both eye regions yield an iris patch, process_image returns
the concatenation of the two eyes' feature vectors, and that vector has
length exactly 240000 = 12 filters times the 100-by-100 patch times 2 eyes,
for every Gabor kernel family and every pair of patches. -/
theorem C7_feature_vector_length (g : ℝ → ℝ → Nat → Nat → ℝ)
    (l r : Nat → Nat → ℝ) :
    process_image g (some l) (some r)
      = some (extract_iris_features g l ++ extract_iris_features g r)
    ∧ (extract_iris_features g l ++ extract_iris_features g r).length = 240000 := by
  refine ⟨rfl, ?_⟩
  simp [List.length_append, extract_iris_features_length]

end BiometricLock
